import Mathlib

/-! Serial Vault: the sub-store handlers, the route tables and the request-ID
nonces.

A shallow embedding of `service/substore/actions.go` (the four sub-store
handlers) and of `service/router.go` (the route tables), with the properties
the specification states about them.

The handlers talk to three collaborators that live in other packages:
`auth.CheckUserPermissions`, the datastore (`datastore.Environ.DB`) and the
response writer (`response.FormatStandardResponse`, `http.ResponseWriter`).
The first two are taken as parameters (structure `Env`), so every theorem
about a handler holds for every permission check and every datastore. What a
handler does to the response writer, the log and the collaborators is recorded
as a list of `Event`s, in program order.
-/

namespace SerialVault

/-! ## Data model -/

/-- Modelled from the spec: the role tiers of `datastore` (`datastore.Standard`,
`datastore.Admin`, `datastore.Superuser`); the constants are declared in package
`datastore`. -/
inductive Role where
  | Standard
  | Admin
  | Superuser
  deriving DecidableEq

/-- Modelled from the spec: `datastore.User`, the principal handed to every
handler: identity, role and the set of accounts it may act for. -/
structure User where
  Username : String
  Role : Role
  Accounts : List Int
  deriving DecidableEq

/-- Modelled from the spec: `datastore.Substore`; `actions.go` reads only the
field `ID`. The other fields are the attributes the spec lists (owning account,
store identifier, model reference). -/
structure Substore where
  ID : Int
  AccountID : Int
  Store : String
  ModelName : String
  deriving DecidableEq

/-- The arguments of `response.FormatStandardResponse`: `success`,
`error_code`, `error_subcode`, `message`. -/
structure Response where
  Success : Bool
  ErrorCode : String
  ErrorSubcode : String
  ErrorMessage : String
  deriving DecidableEq

/-- `ListResponse` is the JSON response from the API sub-stores method. -/
structure ListResponse where
  Success : Bool
  ErrorCode : String
  ErrorSubcode : String
  ErrorMessage : String
  Substores : List Substore
  deriving DecidableEq

/-- A Go `error` value: `none` is `nil`, `some text` is a non-nil error whose
`Error()` is `text`. -/
abbrev GoError := Option String

/-- Everything a handler does that is visible outside it, in program order. -/
inductive Event where
  /-- `w.Header().Set(key, value)` -/
  | setHeader (key value : String)
  /-- `w.WriteHeader(status)` -/
  | writeHeader (status : Nat)
  /-- `auth.CheckUserPermissions(user, role, apiCall)` -/
  | checkUserPermissions (user : User) (role : Role) (apiCall : Bool)
  /-- `datastore.Environ.DB.ListSubstores(accountID, user)` -/
  | listSubstores (accountID : Int) (user : User)
  /-- `datastore.Environ.DB.UpdateAllowedSubstore(store, user)` -/
  | updateAllowedSubstore (store : Substore) (user : User)
  /-- `datastore.Environ.DB.CreateAllowedSubstore(store, user)` -/
  | createAllowedSubstore (store : Substore) (user : User)
  /-- `datastore.Environ.DB.DeleteAllowedSubstore(storeID, user)` -/
  | deleteAllowedSubstore (storeID : Int) (user : User)
  /-- `log.Println(...)`, the operands joined by a blank -/
  | logPrintln (text : String)
  /-- `response.FormatStandardResponse(success, code, subcode, message, w)` -/
  | formatStandardResponse (r : Response)
  /-- `json.NewEncoder(w).Encode(response)` of a `ListResponse` -/
  | encodeListResponse (r : ListResponse)
  deriving DecidableEq

/-- The collaborators of the handlers, over a datastore state `σ`. Each
datastore operation returns its Go results and the state it leaves. -/
structure Env (σ : Type) where
  /-- `auth.CheckUserPermissions(user, minimumAuthorizedRole, apiCall) error` -/
  CheckUserPermissions : User → Role → Bool → GoError
  /-- `DB.ListSubstores(accountID, user) ([]Substore, error)` -/
  ListSubstores : Int → User → σ → (List Substore × GoError) × σ
  /-- `DB.UpdateAllowedSubstore(store, user) error` -/
  UpdateAllowedSubstore : Substore → User → σ → GoError × σ
  /-- `DB.CreateAllowedSubstore(store, user) error` -/
  CreateAllowedSubstore : Substore → User → σ → GoError × σ
  /-- `DB.DeleteAllowedSubstore(storeID, user) (string, error)` -/
  DeleteAllowedSubstore : Int → User → σ → (String × GoError) × σ
  /-- the error value of `json.NewEncoder(w).Encode(response)` -/
  Encode : ListResponse → GoError

/-! ## The handlers of `service/substore/actions.go` -/

/-- The `Content-Type` header every handler sets first. -/
def contentTypeHeader : Event :=
  .setHeader "Content-Type" "application/json; charset=UTF-8"

/-- `http.StatusOK` -/
def StatusOK : Nat := 200

/-- `formatListResponse` encodes the response as JSON; when the encoder fails
it logs and returns the error. -/
def formatListResponse {σ : Type} (env : Env σ) (success : Bool)
    (errorCode errorSubcode message : String) (stores : List Substore) :
    List Event × GoError :=
  let response : ListResponse := ⟨success, errorCode, errorSubcode, message, stores⟩
  match env.Encode response with
  | some err =>
    ([.encodeListResponse response, .logPrintln "Error forming the sub-stores response."],
      some err)
  | none => ([.encodeListResponse response], none)

/-- `listHandler` is the API method to fetch the list sub-stores. -/
def listHandler {σ : Type} (env : Env σ) (user : User) (apiCall : Bool) (accountID : Int)
    (db : σ) : List Event × σ :=
  let w := [contentTypeHeader, .checkUserPermissions user Role.Admin apiCall]
  match env.CheckUserPermissions user Role.Admin apiCall with
  | some _ => (w ++ [.formatStandardResponse ⟨false, "error-auth", "", ""⟩], db)
  | none =>
    match env.ListSubstores accountID user db with
    | ((_, some _), db') =>
      (w ++ [.listSubstores accountID user,
             .formatStandardResponse ⟨false, "error-stores-json", "", ""⟩], db')
    | ((stores, none), db') =>
      (w ++ [.listSubstores accountID user, .writeHeader StatusOK]
         ++ (formatListResponse env true "" "" "" stores).1, db')

/-- `updateHandler`: permission check, then the ID check, then the write. -/
def updateHandler {σ : Type} (env : Env σ) (user : User) (apiCall : Bool) (storeID : Int)
    (store : Substore) (db : σ) : List Event × σ :=
  let w := [contentTypeHeader, .checkUserPermissions user Role.Admin apiCall]
  match env.CheckUserPermissions user Role.Admin apiCall with
  | some _ => (w ++ [.formatStandardResponse ⟨false, "error-auth", "", ""⟩], db)
  | none =>
    if storeID ≠ store.ID then
      (w ++ [.formatStandardResponse
               ⟨false, "error-stores-json", "", "The store IDs do not match"⟩], db)
    else
      match env.UpdateAllowedSubstore store user db with
      | (some err, db') =>
        (w ++ [.updateAllowedSubstore store user,
               .logPrintln ("Error updating the store: " ++ err),
               .formatStandardResponse
                 ⟨false, "error-stores-substore", "", "Error updating the store"⟩], db')
      | (none, db') =>
        (w ++ [.updateAllowedSubstore store user, .writeHeader StatusOK,
               .formatStandardResponse ⟨true, "", "", ""⟩], db')

/-- `createHandler`: permission check, then the write. -/
def createHandler {σ : Type} (env : Env σ) (user : User) (apiCall : Bool)
    (store : Substore) (db : σ) : List Event × σ :=
  let w := [contentTypeHeader, .checkUserPermissions user Role.Admin apiCall]
  match env.CheckUserPermissions user Role.Admin apiCall with
  | some _ => (w ++ [.formatStandardResponse ⟨false, "error-auth", "", ""⟩], db)
  | none =>
    match env.CreateAllowedSubstore store user db with
    | (some _, db') =>
      (w ++ [.createAllowedSubstore store user,
             .formatStandardResponse ⟨false, "error-stores-json", "", ""⟩], db')
    | (none, db') =>
      (w ++ [.createAllowedSubstore store user, .writeHeader StatusOK,
             .formatStandardResponse ⟨true, "", "", ""⟩], db')

/-- `deleteHandler`: permission check, then the delete; the handler has the
store ID of the request path and no payload. -/
def deleteHandler {σ : Type} (env : Env σ) (user : User) (apiCall : Bool) (storeID : Int)
    (db : σ) : List Event × σ :=
  let w := [contentTypeHeader, .checkUserPermissions user Role.Admin apiCall]
  match env.CheckUserPermissions user Role.Admin apiCall with
  | some _ => (w ++ [.formatStandardResponse ⟨false, "error-auth", "", ""⟩], db)
  | none =>
    match env.DeleteAllowedSubstore storeID user db with
    | ((errorSubcode, some err), db') =>
      (w ++ [.deleteAllowedSubstore storeID user,
             .formatStandardResponse ⟨false, "error-deleting-store", errorSubcode, err⟩], db')
    | ((_, none), db') =>
      (w ++ [.deleteAllowedSubstore storeID user, .writeHeader StatusOK,
             .formatStandardResponse ⟨true, "", "", ""⟩], db')

/-! ## Observations on a trace -/

/-- The response tuple an event hands to the response writer, if any. -/
def Event.response? : Event → Option Response
  | .formatStandardResponse r => some r
  | .encodeListResponse r => some ⟨r.Success, r.ErrorCode, r.ErrorSubcode, r.ErrorMessage⟩
  | _ => none

/-- The response tuples of a trace, in order. -/
def responses (t : List Event) : List Response :=
  t.filterMap Event.response?

/-- Whether an event is a call of a datastore operation. -/
def Event.isDatastoreCall : Event → Bool
  | .listSubstores _ _ => true
  | .updateAllowedSubstore _ _ => true
  | .createAllowedSubstore _ _ => true
  | .deleteAllowedSubstore _ _ => true
  | _ => false

/-- The datastore calls of a trace, in order. -/
def datastoreCalls (t : List Event) : List Event :=
  t.filter Event.isDatastoreCall

/-- The roles handed to the permission check in a trace, in order. -/
def requiredRoles (t : List Event) : List Role :=
  t.filterMap fun
    | .checkUserPermissions _ role _ => some role
    | _ => none

/-- The response of a denied request. -/
def errorAuth : Response := ⟨false, "error-auth", "", ""⟩

/-- The response of a successful request. -/
def successResponse : Response := ⟨true, "", "", ""⟩

/-! ## A concrete permission check and datastore

The handlers above are stated over every `Env`. The environment below is the
one the specification describes; it instantiates the theorems at concrete
requests. -/

/-- The rank of a role tier: Standard below Admin below Superuser. -/
def Role.level : Role → Nat
  | .Standard => 1
  | .Admin => 2
  | .Superuser => 3

/-- Modelled from the spec: `auth.CheckUserPermissions`, which is declared in
`service/auth`: deny unless the principal's role is at least the minimum
required role. -/
def specCheckUserPermissions (user : User) (minimumAuthorizedRole : Role) (_apiCall : Bool) :
    GoError :=
  if minimumAuthorizedRole.level ≤ user.Role.level then none
  else some "The user is not authorized"

/-- Modelled from the spec: the account-membership rule of the datastore's
account-scoped operations: a Superuser acts for every account, any other
principal only for the accounts of its account set. -/
def mayActFor (user : User) (accountID : Int) : Bool :=
  user.Role == Role.Superuser || user.Accounts.contains accountID

/-- Modelled from the spec: `DB.ListSubstores`, returning only the entries
owned by `accountID`. -/
def specListSubstores (refusal : String) (accountID : Int) (user : User)
    (db : List Substore) : (List Substore × GoError) × List Substore :=
  if mayActFor user accountID then ((db.filter fun s => s.AccountID == accountID, none), db)
  else (([], some refusal), db)

/-- Modelled from the spec: `DB.UpdateAllowedSubstore`: the row's account is
checked in the same operation that applies the write. -/
def specUpdateAllowedSubstore (refusal : String) (store : Substore) (user : User)
    (db : List Substore) : GoError × List Substore :=
  match db.find? fun row => row.ID == store.ID with
  | some row =>
    if mayActFor user row.AccountID && row.AccountID == store.AccountID then
      (none, db.map fun r => if r.ID == store.ID then store else r)
    else (some refusal, db)
  | none => (some refusal, db)

/-- Modelled from the spec: `DB.CreateAllowedSubstore`. -/
def specCreateAllowedSubstore (refusal : String) (store : Substore) (user : User)
    (db : List Substore) : GoError × List Substore :=
  if mayActFor user store.AccountID then (none, db ++ [store])
  else (some refusal, db)

/-- Modelled from the spec: `DB.DeleteAllowedSubstore`, whose sub-error-code
tells a store that is not found from one the principal may not touch. -/
def specDeleteAllowedSubstore (refusal : String) (storeID : Int) (user : User)
    (db : List Substore) : (String × GoError) × List Substore :=
  match db.find? fun row => row.ID == storeID with
  | some row =>
    if mayActFor user row.AccountID then (("", none), db.filter fun r => r.ID != storeID)
    else (("not-allowed", some refusal), db)
  | none => (("not-found", some refusal), db)

/-- Modelled from the spec: the owning account of the sub-store that the
datastore's update and delete resolve for a store ID, if there is one. -/
def substoreAccount (db : List Substore) (storeID : Int) : Option Int :=
  (db.find? fun row => row.ID == storeID).map Substore.AccountID

/-- Modelled from the spec: the permission check and the account-scoped
datastore of the specification, over a table of sub-stores; `refusal` is the
text of the error value the datastore returns when it refuses. The JSON
encoder does not fail. -/
def specEnv (refusal : String) : Env (List Substore) where
  CheckUserPermissions := specCheckUserPermissions
  ListSubstores := specListSubstores refusal
  UpdateAllowedSubstore := specUpdateAllowedSubstore refusal
  CreateAllowedSubstore := specCreateAllowedSubstore refusal
  DeleteAllowedSubstore := specDeleteAllowedSubstore refusal
  Encode := fun _ => none

/-- A principal with the Admin role on account 7. -/
def adminOf7 : User := ⟨"alice", Role.Admin, [7]⟩

/-- A principal with the Admin role on account 9. -/
def adminOf9 : User := ⟨"bob", Role.Admin, [9]⟩

/-- A principal with the Standard role on account 7. -/
def standardOf7 : User := ⟨"carol", Role.Standard, [7]⟩

/-- The sub-store of the scenario of the spec: account 7, store brand-x, model m1. -/
def brandX : Substore := ⟨1, 7, "brand-x", "m1"⟩

/-! ## The route tables of `service/router.go`

A route of `gorilla/mux` is a path matcher with an optional method matcher. A
path template such as `/v1/models/{id:[0-9]+}` compiles to the anchored regular
expression `^/v1/models/(?P<v0>[0-9]+)$`; a variable without a pattern stands
for `[^/]+`; `PathPrefix(p)` compiles to `^p` with no end anchor. Since neither
a literal segment of the tables nor a variable pattern contains a slash, the
anchored match is a match segment by segment. -/

/-- The pattern of a template variable. -/
inductive VarPattern where
  /-- `[0-9]+` -/
  | digits
  /-- the default `[^/]+` -/
  | segment
  deriving DecidableEq

/-- One slash-separated part of a path template. -/
inductive Seg where
  /-- a literal segment -/
  | lit (text : String)
  /-- a variable `{name}` or `{name:pattern}` -/
  | var (name : String) (pat : VarPattern)
  deriving DecidableEq

/-- How a route matches the request path. -/
inductive PathMatcher where
  /-- `router.Handle(template, ...)`: the whole path matches the template -/
  | exact (template : List Seg)
  /-- `router.PathPrefix(p)`: the path starts with `p` -/
  | startsWith (p : String)
  deriving DecidableEq

/-- A registered route: path matcher, the argument of `.Methods(...)` if the
route has one, and the name of the handler. -/
structure Route where
  path : PathMatcher
  methods : Option (List String)
  handler : String
  deriving DecidableEq

/-- `router.Handle(template, handler)` -/
def Handle (template : List Seg) (handler : String) : Route :=
  ⟨.exact template, none, handler⟩

/-- `router.PathPrefix(p).Handler(handler)` -/
def PathPrefix (p : String) (handler : String) : Route :=
  ⟨.startsWith p, none, handler⟩

/-- `route.Methods(ms...)` -/
def Route.Methods (r : Route) (ms : List String) : Route :=
  { r with methods := some ms }

/-- Whether a run of characters without a slash matches a variable pattern. -/
def VarPattern.accepts : VarPattern → List Char → Bool
  | .digits, tok => !tok.isEmpty && tok.all Char.isDigit
  | .segment, tok => !tok.isEmpty

/-- Whether a run of characters without a slash matches a template segment. -/
def Seg.accepts : Seg → List Char → Bool
  | .lit text, tok => decide (tok = text.toList)
  | .var _ pat, tok => pat.accepts tok

/-- Whether a character is not the path separator. -/
def notSlash (c : Char) : Bool := c != '/'

/-- The anchored match of a path against a template: every segment of the
template consumes a slash and the run of characters up to the next slash, and
nothing is left at the end. -/
def matchTemplate : List Seg → List Char → Bool
  | [], cs => cs.isEmpty
  | _ :: _, [] => false
  | seg :: rest, c :: cs =>
    c == '/' && seg.accepts (cs.takeWhile notSlash) &&
      matchTemplate rest (cs.dropWhile notSlash)

/-- Whether the path matcher of a route accepts a request path. -/
def PathMatcher.accepts : PathMatcher → String → Bool
  | .exact template, path => matchTemplate template path.toList
  | .startsWith p, path => p.toList.isPrefixOf path.toList

/-- Whether a route matches a request: its path matcher accepts the path and,
if it has a method matcher, the method is one of the listed ones. -/
def Route.isMatch (r : Route) (method path : String) : Bool :=
  r.path.accepts path &&
    match r.methods with
    | none => true
    | some ms => ms.contains method

/-- `Router.Match`: the first registered route that matches the request. -/
def dispatch (routes : List Route) (method path : String) : Option Route :=
  routes.find? fun r => r.isMatch method path

/-- The template variable `{id:[0-9]+}`. -/
def idVar : Seg := .var "id" .digits

/-- `AdminRouter` returns the application route handler for administrating the
application: the routes in registration order. -/
def AdminRouter : List Route :=
  [ (Handle [.lit "v1", .lit "version"] "VersionHandler").Methods ["GET"],
    -- API routes: csrf token and auth token
    (Handle [.lit "v1", .lit "token"] "TokenHandler").Methods ["GET"],
    (Handle [.lit "v1", .lit "authtoken"] "TokenHandler").Methods ["GET"],
    -- API routes: models admin
    (Handle [.lit "v1", .lit "models"] "ModelsHandler").Methods ["GET"],
    (Handle [.lit "v1", .lit "models", .lit "assertion"]
      "ModelAssertionHeadersHandler").Methods ["POST"],
    (Handle [.lit "v1", .lit "models"] "ModelCreateHandler").Methods ["POST"],
    (Handle [.lit "v1", .lit "models", idVar] "ModelGetHandler").Methods ["GET"],
    (Handle [.lit "v1", .lit "models", idVar] "ModelUpdateHandler").Methods ["PUT"],
    (Handle [.lit "v1", .lit "models", idVar] "ModelDeleteHandler").Methods ["DELETE"],
    -- API routes: signing-keys
    (Handle [.lit "v1", .lit "keypairs"] "keypair.List").Methods ["GET"],
    (Handle [.lit "v1", .lit "keypairs"] "KeypairCreateHandler").Methods ["POST"],
    (Handle [.lit "v1", .lit "keypairs", idVar, .lit "disable"]
      "KeypairDisableHandler").Methods ["POST"],
    (Handle [.lit "v1", .lit "keypairs", idVar, .lit "enable"]
      "KeypairEnableHandler").Methods ["POST"],
    (Handle [.lit "v1", .lit "keypairs", .lit "assertion"]
      "KeypairAssertionHandler").Methods ["POST"],
    (Handle [.lit "v1", .lit "keypairs", .lit "generate"]
      "KeypairGenerateHandler").Methods ["POST"],
    (Handle [.lit "v1", .lit "keypairs", .lit "status", .var "authorityID" .segment,
      .var "keyName" .segment] "KeypairStatusHandler").Methods ["GET"],
    (Handle [.lit "v1", .lit "keypairs", .lit "status"]
      "KeypairStatusProgressHandler").Methods ["GET"],
    (Handle [.lit "v1", .lit "keypairs", .lit "register"]
      "StoreKeyRegisterHandler").Methods ["POST"],
    -- API routes: signing log
    (Handle [.lit "v1", .lit "signinglog"] "signinglog.List").Methods ["GET"],
    (Handle [.lit "v1", .lit "signinglog", .lit "filters"]
      "signinglog.ListFilters").Methods ["GET"],
    -- API routes: account assertions
    (Handle [.lit "v1", .lit "accounts"] "AccountsHandler").Methods ["GET"],
    (Handle [.lit "v1", .lit "accounts"] "AccountCreateHandler").Methods ["POST"],
    (Handle [.lit "v1", .lit "accounts", idVar] "AccountUpdateHandler").Methods ["PUT"],
    (Handle [.lit "v1", .lit "accounts", idVar] "AccountGetHandler").Methods ["GET"],
    (Handle [.lit "v1", .lit "accounts", .lit "upload"]
      "AccountsUploadHandler").Methods ["POST"],
    (Handle [.lit "v1", .lit "accounts", idVar, .lit "stores"] "substore.List").Methods ["GET"],
    (Handle [.lit "v1", .lit "accounts", .lit "stores", idVar]
      "substore.Update").Methods ["PUT"],
    (Handle [.lit "v1", .lit "accounts", .lit "stores", idVar]
      "substore.Delete").Methods ["DELETE"],
    (Handle [.lit "v1", .lit "accounts", .lit "stores"] "substore.Create").Methods ["POST"],
    -- API routes: system-user assertion
    (Handle [.lit "v1", .lit "assertions"] "SystemUserAssertionHandler").Methods ["POST"],
    -- API routes: users management
    (Handle [.lit "v1", .lit "users"] "user.List").Methods ["GET"],
    (Handle [.lit "v1", .lit "users"] "user.Create").Methods ["POST"],
    (Handle [.lit "v1", .lit "users", idVar] "user.Get").Methods ["GET"],
    (Handle [.lit "v1", .lit "users", idVar] "user.Update").Methods ["PUT"],
    (Handle [.lit "v1", .lit "users", idVar] "user.Delete").Methods ["DELETE"],
    (Handle [.lit "v1", .lit "users", idVar, .lit "otheraccounts"]
      "user.GetOtherAccounts").Methods ["GET"],
    -- OpenID routes: using Ubuntu SSO
    Handle [.lit "login"] "usso.LoginHandler",
    Handle [.lit "logout"] "usso.LogoutHandler",
    -- Web application routes
    PathPrefix "/static/" "http.FileServer",
    PathPrefix "/signing-keys" "IndexHandler",
    PathPrefix "/models" "IndexHandler",
    PathPrefix "/keypairs" "IndexHandler",
    PathPrefix "/accounts" "IndexHandler",
    PathPrefix "/signinglog" "IndexHandler",
    PathPrefix "/systemuser" "IndexHandler",
    PathPrefix "/users" "IndexHandler",
    PathPrefix "/notfound" "IndexHandler",
    (Handle [.lit ""] "IndexHandler").Methods ["GET"],
    -- Admin API routes
    (Handle [.lit "api", .lit "signinglog"] "signinglog.APIList").Methods ["GET"],
    (Handle [.lit "api", .lit "keypairs"] "keypair.APIList").Methods ["GET"],
    (Handle [.lit "api", .lit "accounts", idVar, .lit "stores"]
      "substore.APIList").Methods ["GET"],
    (Handle [.lit "api", .lit "accounts", .lit "stores", idVar]
      "substore.APIUpdate").Methods ["PUT"],
    (Handle [.lit "api", .lit "accounts", .lit "stores", idVar]
      "substore.APIDelete").Methods ["DELETE"],
    (Handle [.lit "api", .lit "accounts", .lit "stores"] "substore.APICreate").Methods ["POST"] ]

/-- `SigningRouter` returns the application route handler for the signing
service methods: the routes in registration order. -/
def SigningRouter : List Route :=
  [ (Handle [.lit "v1", .lit "version"] "VersionHandler").Methods ["GET"],
    (Handle [.lit "v1", .lit "serial"] "SignHandler").Methods ["POST"],
    (Handle [.lit "v1", .lit "request-id"] "RequestIDHandler").Methods ["POST"],
    (Handle [.lit "v1", .lit "model"] "ModelAssertionHandler").Methods ["POST"],
    (Handle [.lit "v1", .lit "pivot"] "PivotModelHandler").Methods ["POST"],
    (Handle [.lit "v1", .lit "pivotmodel"] "PivotModelAssertionHandler").Methods ["POST"],
    (Handle [.lit "v1", .lit "pivotserial"] "PivotSerialAssertionHandler").Methods ["POST"] ]

/-! ### A syntactic test for routes that can match the same request -/

/-- Whether two template segments accept a common run of characters; `true`
when in doubt. -/
def Seg.overlaps : Seg → Seg → Bool
  | .lit a, .lit b => decide (a.toList = b.toList)
  | .lit a, .var _ p => p.accepts a.toList
  | .var _ p, .lit b => p.accepts b.toList
  | .var _ _, .var _ _ => true

/-- Whether two templates can match a common path. -/
def templatesOverlap : List Seg → List Seg → Bool
  | [], [] => true
  | s :: r, s' :: r' => s.overlaps s' && templatesOverlap r r'
  | _, _ => false

/-- Whether a template and a path prefix can accept a common path, judged on
the first segment; `true` when in doubt. -/
def templateOverlapsStart : List Seg → List Char → Bool
  | .lit a :: _, c :: q => c == '/' && (q.takeWhile notSlash).isPrefixOf a.toList
  | _, _ => true

/-- Whether two path matchers can accept a common path. -/
def PathMatcher.overlaps : PathMatcher → PathMatcher → Bool
  | .exact t, .exact t' => templatesOverlap t t'
  | .exact t, .startsWith p => templateOverlapsStart t p.toList
  | .startsWith p, .exact t => templateOverlapsStart t p.toList
  | .startsWith p, .startsWith q => p.toList.isPrefixOf q.toList || q.toList.isPrefixOf p.toList

/-- Whether two method matchers can accept a common method. -/
def methodsOverlap : Option (List String) → Option (List String) → Bool
  | some ms, some ms' => ms.any fun m => ms'.contains m
  | _, _ => true

/-- Whether two routes can match a common request. -/
def Route.overlaps (r r' : Route) : Bool :=
  r.path.overlaps r'.path && methodsOverlap r.methods r'.methods

/-- Whether no two routes of a table can match a common request. -/
def overlapFree : List Route → Bool
  | [] => true
  | r :: rs => rs.all (fun r' => !r.overlaps r') && overlapFree rs

/-! ## Runs that differ only in the text of the datastore's errors -/

/-- The environment `env` with the text of every error value of the datastore
rewritten by `f`: same permission check, same results, same sub-error-codes,
same states. -/
def Env.withErrorText {σ : Type} (env : Env σ) (f : String → String) : Env σ where
  CheckUserPermissions := env.CheckUserPermissions
  ListSubstores := fun accountID user db =>
    let r := env.ListSubstores accountID user db
    ((r.1.1, r.1.2.map f), r.2)
  UpdateAllowedSubstore := fun store user db =>
    let r := env.UpdateAllowedSubstore store user db
    (r.1.map f, r.2)
  CreateAllowedSubstore := fun store user db =>
    let r := env.CreateAllowedSubstore store user db
    (r.1.map f, r.2)
  DeleteAllowedSubstore := fun storeID user db =>
    let r := env.DeleteAllowedSubstore storeID user db
    ((r.1.1, r.1.2.map f), r.2)
  Encode := env.Encode

/-- The fixed set of error codes of the sub-store handlers. -/
def errorCodes : List String :=
  ["error-auth", "error-stores-json", "error-stores-substore", "error-deleting-store"]

/-- A response is either a failure with a code of the fixed set or the bare
success tuple. -/
def Response.wellFormed (r : Response) : Prop :=
  (r.Success = false ∧ r.ErrorCode ≠ "" ∧ r.ErrorCode ∈ errorCodes) ∨ r = ⟨true, "", "", ""⟩

/-- The part of a response that does not carry the message. -/
def Response.codes (r : Response) : Bool × String × String :=
  (r.Success, r.ErrorCode, r.ErrorSubcode)

/-! ## Request-ID nonces

`SigningRouter` routes `POST /v1/request-id` to `RequestIDHandler` and
`POST /v1/serial` to `SignHandler`; the handlers and the nonce table live in
other packages. -/

/-- Modelled from the spec: a request-ID nonce: unique token, issuance
timestamp, expiry, consumed flag. -/
structure Nonce where
  Token : String
  Issued : Nat
  Expiry : Nat
  Consumed : Bool
  deriving DecidableEq

/-- Modelled from the spec: the outcome of `redeem`. -/
inductive RedeemResult where
  | Success
  | ErrorNonceInvalid
  deriving DecidableEq

/-- Modelled from the spec: a nonce can be redeemed for `token` at time `now`
when it carries the token, is not consumed and has not expired. -/
def Nonce.redeemable (token : String) (now : Nat) (n : Nonce) : Bool :=
  n.Token == token && !n.Consumed && decide (now ≤ n.Expiry)

/-- Modelled from the spec: `issue`, of the nonce table behind
`RequestIDHandler`: persists a pending nonce for a token that is not on record
yet (tokens are unique), with the issuance time and the expiry window. -/
def issue (token : String) (now window : Nat) (store : List Nonce) : List Nonce :=
  if store.any fun n => n.Token == token then store
  else ⟨token, now, now + window, false⟩ :: store

/-- Modelled from the spec: `redeem`, of the nonce table behind `SignHandler`:
one atomic check-and-mark; fails when the token is unknown, expired or
already consumed. -/
def redeem (token : String) (now : Nat) (store : List Nonce) : RedeemResult × List Nonce :=
  if store.any (Nonce.redeemable token now) then
    (.Success, store.map fun n => if n.Token == token then { n with Consumed := true } else n)
  else (.ErrorNonceInvalid, store)

/-- A call on the nonce table. -/
inductive NonceOp where
  | issue (token : String) (now window : Nat)
  | redeem (token : String) (now : Nat)
  deriving DecidableEq

/-- The calls of a schedule applied one after the other to the shared table:
the results of the `redeem` calls, in order, each with its token. Concurrent
callers are an arbitrary interleaving of their atomic calls. -/
def runOps : List NonceOp → List Nonce → List (String × RedeemResult)
  | [], _ => []
  | .issue token now window :: ops, store => runOps ops (issue token now window store)
  | .redeem token now :: ops, store =>
    (token, (redeem token now store).1) :: runOps ops (redeem token now store).2

/-- The nonce table after the calls of a schedule. -/
def applyOps : List NonceOp → List Nonce → List Nonce
  | [], store => store
  | .issue token now window :: ops, store => applyOps ops (issue token now window store)
  | .redeem token now :: ops, store => applyOps ops (redeem token now store).2

/-- A token is spent in a table when it is on record and every nonce that
carries it is consumed. -/
def spent (token : String) (store : List Nonce) : Prop :=
  (∃ n ∈ store, n.Token = token) ∧ ∀ n ∈ store, n.Token = token → n.Consumed = true

end SerialVault

/-! # Theorems -/

namespace SerialVault

/-! ## The sub-store handlers -/

/-- C1: when the permission check at the handler's required role returns an
error, updateHandler, createHandler and deleteHandler each respond with
success=false, error_code "error-auth", empty subcode and empty message, call
no datastore operation and leave the datastore as it was; for updateHandler
also when the path ID and the payload ID differ. -/
theorem auth_denied_short_circuits {σ : Type} (env : Env σ) (user : User) (apiCall : Bool)
    (storeID : Int) (store : Substore) (db : σ)
    (hdeny : env.CheckUserPermissions user Role.Admin apiCall ≠ none) :
    (responses (updateHandler env user apiCall storeID store db).1
        = [⟨false, "error-auth", "", ""⟩]
      ∧ datastoreCalls (updateHandler env user apiCall storeID store db).1 = []
      ∧ (updateHandler env user apiCall storeID store db).2 = db)
    ∧ (responses (createHandler env user apiCall store db).1 = [⟨false, "error-auth", "", ""⟩]
      ∧ datastoreCalls (createHandler env user apiCall store db).1 = []
      ∧ (createHandler env user apiCall store db).2 = db)
    ∧ (responses (deleteHandler env user apiCall storeID db).1 = [⟨false, "error-auth", "", ""⟩]
      ∧ datastoreCalls (deleteHandler env user apiCall storeID db).1 = []
      ∧ (deleteHandler env user apiCall storeID db).2 = db) := by
  cases hc : env.CheckUserPermissions user Role.Admin apiCall with
  | none => exact absurd hc hdeny
  | some e =>
    simp [updateHandler, createHandler, deleteHandler, hc, responses, datastoreCalls,
      contentTypeHeader, Event.response?, Event.isDatastoreCall]

/-- A Standard principal is denied at Admin level; the update carries a payload
whose ID differs from the path ID. -/
theorem auth_denied_short_circuits_witness :
    (specEnv "refused").CheckUserPermissions standardOf7 Role.Admin false ≠ none
    ∧ (2 : Int) ≠ brandX.ID
    ∧ responses (updateHandler (specEnv "refused") standardOf7 false 2 brandX [brandX]).1
        = [⟨false, "error-auth", "", ""⟩]
    ∧ datastoreCalls (deleteHandler (specEnv "refused") standardOf7 false 2 [brandX]).1 = [] :=
  have h := auth_denied_short_circuits (specEnv "refused") standardOf7 false 2 brandX [brandX]
    (by decide)
  ⟨by decide, by decide, h.1.1, h.2.2.2.1⟩

/-- C2: for an authorized user and a payload whose ID differs from the store ID
of the request path, updateHandler responds success=false, error_code
"error-stores-json", message "The store IDs do not match"; it calls no
datastore operation and leaves the datastore as it was. -/
theorem update_rejects_id_mismatch {σ : Type} (env : Env σ) (user : User) (apiCall : Bool)
    (storeID : Int) (store : Substore) (db : σ)
    (hauth : env.CheckUserPermissions user Role.Admin apiCall = none)
    (hid : storeID ≠ store.ID) :
    responses (updateHandler env user apiCall storeID store db).1
        = [⟨false, "error-stores-json", "", "The store IDs do not match"⟩]
    ∧ datastoreCalls (updateHandler env user apiCall storeID store db).1 = []
    ∧ (updateHandler env user apiCall storeID store db).2 = db := by
  simp [updateHandler, hauth, hid, responses, datastoreCalls, contentTypeHeader,
    Event.response?, Event.isDatastoreCall]

/-- The Admin of account 7 updates sub-store 1 of its own account through the
path of sub-store 2. -/
theorem update_rejects_id_mismatch_witness :
    (specEnv "refused").CheckUserPermissions adminOf7 Role.Admin false = none
    ∧ (2 : Int) ≠ brandX.ID
    ∧ responses (updateHandler (specEnv "refused") adminOf7 false 2 brandX [brandX]).1
        = [⟨false, "error-stores-json", "", "The store IDs do not match"⟩]
    ∧ (updateHandler (specEnv "refused") adminOf7 false 2 brandX [brandX]).2 = [brandX] :=
  have h := update_rejects_id_mismatch (specEnv "refused") adminOf7 false 2 brandX [brandX]
    (by decide) (by decide)
  ⟨by decide, by decide, h.1, h.2.2⟩

/-- C3, as stated, fails: the Admin of account 9 is not a Superuser and account 7
is not in its account set; the role check passes, the account-scoped datastore
refuses, and the error code is the handler's datastore error code, not
"error-auth". -/
theorem other_account_admin_not_error_auth :
    adminOf9.Role ≠ Role.Superuser ∧ brandX.AccountID ∉ adminOf9.Accounts
    ∧ (responses (updateHandler (specEnv "refused") adminOf9 false 1 brandX [brandX]).1).map
        Response.ErrorCode = ["error-stores-substore"]
    ∧ (responses (createHandler (specEnv "refused") adminOf9 false brandX []).1).map
        Response.ErrorCode = ["error-stores-json"]
    ∧ (responses (deleteHandler (specEnv "refused") adminOf9 false 1 [brandX]).1).map
        Response.ErrorCode = ["error-deleting-store"] := by
  decide

/-- C3, amended: for every principal that is not a Superuser and every account
A outside its account set, each mutating sub-store operation on A (over the
account-scoped datastore of the spec) responds success=false and performs no
write; the error code is "error-auth" when the principal is below Admin, and
for an Admin of another account it is the handler's own code:
"error-stores-json" for an update whose path ID and payload ID differ,
"error-stores-substore" for an update the datastore refuses, "error-stores-json"
for create and "error-deleting-store" for delete. For every permission check
and every datastore, a mutating handler answers "error-auth" exactly when the
permission check returns an error. -/
theorem non_member_mutation_fails_without_write {σ : Type} (env : Env σ) (state : σ)
    (refusal : String) (user : User) (apiCall : Bool) (A storeID : Int) (store : Substore)
    (db : List Substore) (hrole : user.Role ≠ Role.Superuser) (hA : A ∉ user.Accounts) :
    ((store.AccountID = A ∨ substoreAccount db store.ID = some A) →
      responses (updateHandler (specEnv refusal) user apiCall storeID store db).1
          = [if user.Role = Role.Admin then
              (if storeID ≠ store.ID then
                ⟨false, "error-stores-json", "", "The store IDs do not match"⟩
              else ⟨false, "error-stores-substore", "", "Error updating the store"⟩)
            else ⟨false, "error-auth", "", ""⟩]
        ∧ (updateHandler (specEnv refusal) user apiCall storeID store db).2 = db)
    ∧ (store.AccountID = A →
      responses (createHandler (specEnv refusal) user apiCall store db).1
          = [if user.Role = Role.Admin then ⟨false, "error-stores-json", "", ""⟩
            else ⟨false, "error-auth", "", ""⟩]
        ∧ (createHandler (specEnv refusal) user apiCall store db).2 = db)
    ∧ (substoreAccount db storeID = some A →
      responses (deleteHandler (specEnv refusal) user apiCall storeID db).1
          = [if user.Role = Role.Admin then
              ⟨false, "error-deleting-store", "not-allowed", refusal⟩
            else ⟨false, "error-auth", "", ""⟩]
        ∧ (deleteHandler (specEnv refusal) user apiCall storeID db).2 = db)
    ∧ ((∃ r ∈ responses (updateHandler env user apiCall storeID store state).1,
          r.ErrorCode = "error-auth")
        ↔ env.CheckUserPermissions user Role.Admin apiCall ≠ none)
    ∧ ((∃ r ∈ responses (createHandler env user apiCall store state).1,
          r.ErrorCode = "error-auth")
        ↔ env.CheckUserPermissions user Role.Admin apiCall ≠ none)
    ∧ ((∃ r ∈ responses (deleteHandler env user apiCall storeID state).1,
          r.ErrorCode = "error-auth")
        ↔ env.CheckUserPermissions user Role.Admin apiCall ≠ none) := by
  refine ⟨?_, ?_, ?_, ?_, ?_, ?_⟩
  · intro htarget
    obtain ⟨name, role, accounts⟩ := user
    cases role with
    | Superuser => exact absurd rfl hrole
    | Standard =>
      simp [updateHandler, specEnv, specCheckUserPermissions, Role.level, responses,
        contentTypeHeader, Event.response?]
    | Admin =>
      by_cases hid : storeID = store.ID
      · cases hfind : db.find? (fun row => row.ID == store.ID) with
        | none =>
          simp [updateHandler, specEnv, specCheckUserPermissions, Role.level, responses,
            contentTypeHeader, Event.response?, hid, specUpdateAllowedSubstore, hfind]
        | some row =>
          have hrefuse : (mayActFor ⟨name, Role.Admin, accounts⟩ row.AccountID
              && row.AccountID == store.AccountID) = false := by
            rcases htarget with hs | hs
            · by_cases hrow : row.AccountID = store.AccountID
              · have : row.AccountID ∉ accounts := by rw [hrow, hs]; exact hA
                simp [mayActFor, this]
              · simp [hrow]
            · have hrow : row.AccountID = A := by
                simpa [substoreAccount, hfind] using hs
              have : row.AccountID ∉ accounts := by rw [hrow]; exact hA
              simp [mayActFor, this]
          simp [updateHandler, specEnv, specCheckUserPermissions, Role.level, responses,
            contentTypeHeader, Event.response?, hid, specUpdateAllowedSubstore, hfind, hrefuse]
      · simp [updateHandler, specEnv, specCheckUserPermissions, Role.level, responses,
          contentTypeHeader, Event.response?, hid]
  · intro htarget
    obtain ⟨name, role, accounts⟩ := user
    have hmember : store.AccountID ∉ accounts := by rw [htarget]; exact hA
    cases role with
    | Superuser => exact absurd rfl hrole
    | Standard =>
      simp [createHandler, specEnv, specCheckUserPermissions, Role.level, responses,
        contentTypeHeader, Event.response?]
    | Admin =>
      simp [createHandler, specEnv, specCheckUserPermissions, Role.level, responses,
        contentTypeHeader, Event.response?, specCreateAllowedSubstore, mayActFor, hmember]
  · intro htarget
    obtain ⟨name, role, accounts⟩ := user
    cases role with
    | Superuser => exact absurd rfl hrole
    | Standard =>
      simp [deleteHandler, specEnv, specCheckUserPermissions, Role.level, responses,
        contentTypeHeader, Event.response?]
    | Admin =>
      cases hfind : db.find? (fun row => row.ID == storeID) with
      | none => simp [substoreAccount, hfind] at htarget
      | some row =>
        have hrow : row.AccountID = A := by simpa [substoreAccount, hfind] using htarget
        have hmember : row.AccountID ∉ accounts := by rw [hrow]; exact hA
        simp [deleteHandler, specEnv, specCheckUserPermissions, Role.level, responses,
          contentTypeHeader, Event.response?, specDeleteAllowedSubstore, hfind, mayActFor,
          hmember]
  · cases hc : env.CheckUserPermissions user Role.Admin apiCall with
    | some e => simp [updateHandler, hc, responses, contentTypeHeader, Event.response?]
    | none =>
      by_cases hid : storeID = store.ID
      · rcases hu : env.UpdateAllowedSubstore store user state with ⟨_ | e, db'⟩ <;>
          simp [updateHandler, hc, hu, hid, responses, contentTypeHeader, Event.response?]
      · simp [updateHandler, hc, hid, responses, contentTypeHeader, Event.response?]
  · cases hc : env.CheckUserPermissions user Role.Admin apiCall with
    | some e => simp [createHandler, hc, responses, contentTypeHeader, Event.response?]
    | none =>
      rcases hu : env.CreateAllowedSubstore store user state with ⟨_ | e, db'⟩ <;>
        simp [createHandler, hc, hu, responses, contentTypeHeader, Event.response?]
  · cases hc : env.CheckUserPermissions user Role.Admin apiCall with
    | some e => simp [deleteHandler, hc, responses, contentTypeHeader, Event.response?]
    | none =>
      rcases hu : env.DeleteAllowedSubstore storeID user state with ⟨⟨sub, _ | e⟩, db'⟩ <;>
        simp [deleteHandler, hc, hu, responses, contentTypeHeader, Event.response?]

/-- The Admin of account 9 acts on the sub-store of account 7: the update and the
delete are refused by the datastore and leave the table as it was; the
responses carry the handlers' own codes. -/
theorem non_member_mutation_fails_without_write_witness :
    adminOf9.Role ≠ Role.Superuser ∧ (7 : Int) ∉ adminOf9.Accounts
    ∧ substoreAccount [brandX] brandX.ID = some 7
    ∧ (responses (updateHandler (specEnv "refused") adminOf9 false 1 brandX [brandX]).1
        = [⟨false, "error-stores-substore", "", "Error updating the store"⟩]
      ∧ (updateHandler (specEnv "refused") adminOf9 false 1 brandX [brandX]).2 = [brandX])
    ∧ (responses (createHandler (specEnv "refused") adminOf9 false brandX [brandX]).1
        = [⟨false, "error-stores-json", "", ""⟩]
      ∧ (createHandler (specEnv "refused") adminOf9 false brandX [brandX]).2 = [brandX])
    ∧ (responses (deleteHandler (specEnv "refused") adminOf9 false 1 [brandX]).1
        = [⟨false, "error-deleting-store", "not-allowed", "refused"⟩]
      ∧ (deleteHandler (specEnv "refused") adminOf9 false 1 [brandX]).2 = [brandX]) :=
  have h := non_member_mutation_fails_without_write (specEnv "refused") [brandX] "refused"
    adminOf9 false 7 1 brandX [brandX] (by decide) (by decide)
  ⟨by decide, by decide, by decide, h.1 (Or.inl rfl), h.2.1 rfl, h.2.2.1 (by decide)⟩

/-- C4: each of the four handlers emits exactly one response tuple; the tuple is
either a failure with a non-empty error code of the fixed set or the bare
success tuple; and it is a failure exactly when the permission check denies,
the IDs mismatch (update) or the datastore operation returns an error. -/
theorem one_well_formed_response {σ : Type} (env : Env σ) (user : User) (apiCall : Bool)
    (accountID storeID : Int) (store : Substore) (db : σ) :
    (∃ r, responses (listHandler env user apiCall accountID db).1 = [r] ∧ r.wellFormed
      ∧ (r.Success = false ↔ (env.CheckUserPermissions user Role.Admin apiCall ≠ none
          ∨ (env.ListSubstores accountID user db).1.2 ≠ none)))
    ∧ (∃ r, responses (updateHandler env user apiCall storeID store db).1 = [r] ∧ r.wellFormed
      ∧ (r.Success = false ↔ (env.CheckUserPermissions user Role.Admin apiCall ≠ none
          ∨ storeID ≠ store.ID ∨ (env.UpdateAllowedSubstore store user db).1 ≠ none)))
    ∧ (∃ r, responses (createHandler env user apiCall store db).1 = [r] ∧ r.wellFormed
      ∧ (r.Success = false ↔ (env.CheckUserPermissions user Role.Admin apiCall ≠ none
          ∨ (env.CreateAllowedSubstore store user db).1 ≠ none)))
    ∧ (∃ r, responses (deleteHandler env user apiCall storeID db).1 = [r] ∧ r.wellFormed
      ∧ (r.Success = false ↔ (env.CheckUserPermissions user Role.Admin apiCall ≠ none
          ∨ (env.DeleteAllowedSubstore storeID user db).1.2 ≠ none))) := by
  refine ⟨?_, ?_, ?_, ?_⟩
  · cases hc : env.CheckUserPermissions user Role.Admin apiCall with
    | some e =>
      simp [listHandler, hc, responses, contentTypeHeader, Event.response?,
        Response.wellFormed, errorCodes]
    | none =>
      rcases hl : env.ListSubstores accountID user db with ⟨⟨stores, _ | e⟩, db'⟩ <;>
        cases henc : env.Encode ⟨true, "", "", "", stores⟩ <;>
        simp [listHandler, formatListResponse, henc, hc, hl, responses, contentTypeHeader,
          Event.response?, Response.wellFormed, errorCodes]
  · cases hc : env.CheckUserPermissions user Role.Admin apiCall with
    | some e =>
      simp [updateHandler, hc, responses, contentTypeHeader, Event.response?,
        Response.wellFormed, errorCodes]
    | none =>
      by_cases hid : storeID = store.ID
      · rcases hu : env.UpdateAllowedSubstore store user db with ⟨_ | e, db'⟩ <;>
          simp [updateHandler, hc, hu, hid, responses, contentTypeHeader, Event.response?,
            Response.wellFormed, errorCodes]
      · simp [updateHandler, hc, hid, responses, contentTypeHeader, Event.response?,
          Response.wellFormed, errorCodes]
  · cases hc : env.CheckUserPermissions user Role.Admin apiCall with
    | some e =>
      simp [createHandler, hc, responses, contentTypeHeader, Event.response?,
        Response.wellFormed, errorCodes]
    | none =>
      rcases hu : env.CreateAllowedSubstore store user db with ⟨_ | e, db'⟩ <;>
        simp [createHandler, hc, hu, responses, contentTypeHeader, Event.response?,
          Response.wellFormed, errorCodes]
  · cases hc : env.CheckUserPermissions user Role.Admin apiCall with
    | some e =>
      simp [deleteHandler, hc, responses, contentTypeHeader, Event.response?,
        Response.wellFormed, errorCodes]
    | none =>
      rcases hu : env.DeleteAllowedSubstore storeID user db with ⟨⟨sub, _ | e⟩, db'⟩ <;>
        simp [deleteHandler, hc, hu, responses, contentTypeHeader, Event.response?,
          Response.wellFormed, errorCodes]

/-- C5: for an authorized user, when DeleteAllowedSubstore returns a non-nil
error deleteHandler responds success=false, error_code "error-deleting-store"
and exactly the datastore's sub-error-code (with the error's text as message),
and when the error is nil it responds with the success tuple; hence two
failed deletes whose datastore subcodes differ get different responses. -/
theorem delete_propagates_subcode {σ : Type} (env env' : Env σ) (user user' : User)
    (apiCall apiCall' : Bool) (storeID storeID' : Int) (db db' : σ)
    (hauth : env.CheckUserPermissions user Role.Admin apiCall = none)
    (hauth' : env'.CheckUserPermissions user' Role.Admin apiCall' = none) :
    responses (deleteHandler env user apiCall storeID db).1
        = (match (env.DeleteAllowedSubstore storeID user db).1 with
          | (sub, some e) => [⟨false, "error-deleting-store", sub, e⟩]
          | (_, none) => [⟨true, "", "", ""⟩])
    ∧ ((env.DeleteAllowedSubstore storeID user db).1.2 ≠ none →
        (env'.DeleteAllowedSubstore storeID' user' db').1.2 ≠ none →
        (env.DeleteAllowedSubstore storeID user db).1.1
          ≠ (env'.DeleteAllowedSubstore storeID' user' db').1.1 →
        responses (deleteHandler env user apiCall storeID db).1
          ≠ responses (deleteHandler env' user' apiCall' storeID' db').1) := by
  rcases hd : env.DeleteAllowedSubstore storeID user db with ⟨⟨sub, _ | e⟩, db1⟩ <;>
    rcases hd' : env'.DeleteAllowedSubstore storeID' user' db' with ⟨⟨sub', _ | e'⟩, db2⟩ <;>
    simp [deleteHandler, hauth, hauth', hd, hd', responses, contentTypeHeader,
      Event.response?]
  intro hne h _
  exact absurd h hne

/-- The Admin of account 7 deletes a sub-store that does not exist (subcode
"not-found"); the Admin of account 9 deletes the sub-store of account 7
(subcode "not-allowed"); the two responses differ. -/
theorem delete_propagates_subcode_witness :
    (specEnv "refused").CheckUserPermissions adminOf7 Role.Admin false = none
    ∧ (specEnv "refused").CheckUserPermissions adminOf9 Role.Admin false = none
    ∧ responses (deleteHandler (specEnv "refused") adminOf7 false 5 [brandX]).1
        = [⟨false, "error-deleting-store", "not-found", "refused"⟩]
    ∧ responses (deleteHandler (specEnv "refused") adminOf7 false 5 [brandX]).1
        ≠ responses (deleteHandler (specEnv "refused") adminOf9 false 1 [brandX]).1 :=
  have h := delete_propagates_subcode (specEnv "refused") (specEnv "refused") adminOf7
    adminOf9 false false 5 1 [brandX] [brandX] (by decide) (by decide)
  ⟨by decide, by decide, h.1, h.2 (by decide) (by decide) (by decide)⟩

/-- C6 at deleteHandler: two runs with the same inputs whose datastore refuses
with the same sub-error-code and a different error text send different
response tuples, because deleteHandler sends the text of the datastore's error
as the message, where the claim asks for identical tuples. -/
theorem delete_response_carries_error_text :
    (specDeleteAllowedSubstore "pq: relation substore" 1 adminOf9 [brandX]).1.1
        = (specDeleteAllowedSubstore "sql: connection is closed" 1 adminOf9 [brandX]).1.1
    ∧ responses (deleteHandler (specEnv "pq: relation substore") adminOf9 false 1 [brandX]).1
        ≠ responses (deleteHandler (specEnv "sql: connection is closed") adminOf9 false 1
            [brandX]).1
    ∧ (responses (deleteHandler (specEnv "pq: relation substore") adminOf9 false 1
        [brandX]).1).map Response.ErrorMessage = ["pq: relation substore"] := by
  decide

/-- The sibling handlers keep the datastore's error text out of the response:
for listHandler, updateHandler and createHandler two runs that differ only in
the text of the datastore's errors send the same response tuple. For
deleteHandler such runs agree on success, error_code and error_subcode, and
the message of a failed delete is the text of the datastore's error. -/
theorem responses_independent_of_error_text {σ : Type} (env : Env σ) (f : String → String)
    (user : User) (apiCall : Bool) (accountID storeID : Int) (store : Substore) (db : σ) :
    responses (listHandler (env.withErrorText f) user apiCall accountID db).1
        = responses (listHandler env user apiCall accountID db).1
    ∧ responses (updateHandler (env.withErrorText f) user apiCall storeID store db).1
        = responses (updateHandler env user apiCall storeID store db).1
    ∧ responses (createHandler (env.withErrorText f) user apiCall store db).1
        = responses (createHandler env user apiCall store db).1
    ∧ (responses (deleteHandler (env.withErrorText f) user apiCall storeID db).1).map
          Response.codes
        = (responses (deleteHandler env user apiCall storeID db).1).map Response.codes
    ∧ (responses (deleteHandler env user apiCall storeID db).1).map Response.ErrorMessage
        = (match env.CheckUserPermissions user Role.Admin apiCall,
              (env.DeleteAllowedSubstore storeID user db).1.2 with
          | none, some e => [e]
          | _, _ => [""]) := by
  refine ⟨?_, ?_, ?_, ?_, ?_⟩
  · cases hc : env.CheckUserPermissions user Role.Admin apiCall with
    | some e =>
      simp [listHandler, Env.withErrorText, hc, responses, Event.response?, contentTypeHeader]
    | none =>
      rcases hl : env.ListSubstores accountID user db with ⟨⟨stores, _ | e⟩, db'⟩ <;>
        cases henc : env.Encode ⟨true, "", "", "", stores⟩ <;>
        simp [listHandler, formatListResponse, henc, Env.withErrorText, hc, hl, responses,
          Event.response?, contentTypeHeader]
  · cases hc : env.CheckUserPermissions user Role.Admin apiCall with
    | some e =>
      simp [updateHandler, Env.withErrorText, hc, responses, Event.response?, contentTypeHeader]
    | none =>
      by_cases hid : storeID = store.ID
      · rcases hu : env.UpdateAllowedSubstore store user db with ⟨_ | e, db'⟩ <;>
          simp [updateHandler, Env.withErrorText, hc, hu, hid, responses, Event.response?,
            contentTypeHeader]
      · simp [updateHandler, Env.withErrorText, hc, hid, responses, Event.response?,
          contentTypeHeader]
  · cases hc : env.CheckUserPermissions user Role.Admin apiCall with
    | some e =>
      simp [createHandler, Env.withErrorText, hc, responses, Event.response?, contentTypeHeader]
    | none =>
      rcases hu : env.CreateAllowedSubstore store user db with ⟨_ | e, db'⟩ <;>
        simp [createHandler, Env.withErrorText, hc, hu, responses, Event.response?,
          contentTypeHeader]
  · cases hc : env.CheckUserPermissions user Role.Admin apiCall with
    | some e =>
      simp [deleteHandler, Env.withErrorText, hc, responses, Event.response?, contentTypeHeader]
    | none =>
      rcases hu : env.DeleteAllowedSubstore storeID user db with ⟨⟨sub, _ | e⟩, db'⟩ <;>
        simp [deleteHandler, Env.withErrorText, hc, hu, responses, Event.response?,
          Response.codes, contentTypeHeader]
  · cases hc : env.CheckUserPermissions user Role.Admin apiCall with
    | some e => simp [deleteHandler, hc, responses, Event.response?, contentTypeHeader]
    | none =>
      rcases hu : env.DeleteAllowedSubstore storeID user db with ⟨⟨sub, _ | e⟩, db'⟩ <;>
        simp [deleteHandler, hc, hu, responses, Event.response?, contentTypeHeader]

/-- C7, as stated, fails: a Standard principal passes the permission check at
Standard level, yet listHandler asks for the Admin role and refuses it with
"error-auth". -/
theorem standard_principal_cannot_list :
    standardOf7.Role = Role.Standard
    ∧ (specEnv "refused").CheckUserPermissions standardOf7 Role.Standard false = none
    ∧ requiredRoles (listHandler (specEnv "refused") standardOf7 false 7 [brandX]).1
        = [Role.Admin]
    ∧ responses (listHandler (specEnv "refused") standardOf7 false 7 [brandX]).1
        = [⟨false, "error-auth", "", ""⟩] := by
  decide

/-- C7, amended: every sub-store handler, listHandler included, hands the Admin
role to the permission check, once; listHandler answers "error-auth" exactly
when the check at Admin level returns an error. -/
theorem every_handler_requires_admin {σ : Type} (env : Env σ) (user : User) (apiCall : Bool)
    (accountID storeID : Int) (store : Substore) (db : σ) :
    requiredRoles (listHandler env user apiCall accountID db).1 = [Role.Admin]
    ∧ requiredRoles (createHandler env user apiCall store db).1 = [Role.Admin]
    ∧ requiredRoles (updateHandler env user apiCall storeID store db).1 = [Role.Admin]
    ∧ requiredRoles (deleteHandler env user apiCall storeID db).1 = [Role.Admin]
    ∧ (responses (listHandler env user apiCall accountID db).1 = [⟨false, "error-auth", "", ""⟩]
        ↔ env.CheckUserPermissions user Role.Admin apiCall ≠ none) := by
  refine ⟨?_, ?_, ?_, ?_, ?_⟩
  · cases hc : env.CheckUserPermissions user Role.Admin apiCall with
    | some e => simp [listHandler, hc, requiredRoles, contentTypeHeader]
    | none =>
      rcases hl : env.ListSubstores accountID user db with ⟨⟨stores, _ | e⟩, db'⟩ <;>
        cases henc : env.Encode ⟨true, "", "", "", stores⟩ <;>
        simp [listHandler, formatListResponse, henc, hc, hl, requiredRoles, contentTypeHeader]
  · cases hc : env.CheckUserPermissions user Role.Admin apiCall with
    | some e => simp [createHandler, hc, requiredRoles, contentTypeHeader]
    | none =>
      rcases hu : env.CreateAllowedSubstore store user db with ⟨_ | e, db'⟩ <;>
        simp [createHandler, hc, hu, requiredRoles, contentTypeHeader]
  · cases hc : env.CheckUserPermissions user Role.Admin apiCall with
    | some e => simp [updateHandler, hc, requiredRoles, contentTypeHeader]
    | none =>
      by_cases hid : storeID = store.ID
      · rcases hu : env.UpdateAllowedSubstore store user db with ⟨_ | e, db'⟩ <;>
          simp [updateHandler, hc, hu, hid, requiredRoles, contentTypeHeader]
      · simp [updateHandler, hc, hid, requiredRoles, contentTypeHeader]
  · cases hc : env.CheckUserPermissions user Role.Admin apiCall with
    | some e => simp [deleteHandler, hc, requiredRoles, contentTypeHeader]
    | none =>
      rcases hu : env.DeleteAllowedSubstore storeID user db with ⟨⟨sub, _ | e⟩, db'⟩ <;>
        simp [deleteHandler, hc, hu, requiredRoles, contentTypeHeader]
  · cases hc : env.CheckUserPermissions user Role.Admin apiCall with
    | some e => simp [listHandler, hc, responses, Event.response?, contentTypeHeader]
    | none =>
      rcases hl : env.ListSubstores accountID user db with ⟨⟨stores, _ | e⟩, db'⟩ <;>
        cases henc : env.Encode ⟨true, "", "", "", stores⟩ <;>
        simp [listHandler, formatListResponse, henc, hc, hl, responses, Event.response?,
          contentTypeHeader]

/-- C8, as stated, fails: deleteHandler has no payload to compare the path ID
with; a delete of sub-store 1 by the Admin of its account succeeds and calls
DeleteAllowedSubstore whatever the ID of a submitted payload is. -/
theorem delete_has_no_id_check :
    ¬ ∀ (env : Env (List Substore)) (user : User) (apiCall : Bool) (storeID : Int)
        (payload : Substore) (db : List Substore), storeID ≠ payload.ID →
        (∀ r ∈ responses (deleteHandler env user apiCall storeID db).1, r.Success = false)
        ∧ Event.deleteAllowedSubstore storeID user
            ∉ (deleteHandler env user apiCall storeID db).1 := by
  intro h
  have h2 := (h (specEnv "refused") adminOf7 false 1 ⟨2, 7, "brand-x", "m1"⟩ [brandX]
    (by decide)).2
  exact absurd h2 (by decide)

/-- C8, amended: for an authorized user, updateHandler re-verifies that the path
ID equals the payload ID before mutating (on a mismatch it rejects the request
and calls no datastore operation), while deleteHandler, which receives the path
ID only, calls DeleteAllowedSubstore once, with that ID. -/
theorem update_checks_id_delete_uses_path_id {σ : Type} (env : Env σ) (user : User)
    (apiCall : Bool) (storeID : Int) (store : Substore) (db : σ)
    (hauth : env.CheckUserPermissions user Role.Admin apiCall = none) :
    (storeID ≠ store.ID →
      (∀ r ∈ responses (updateHandler env user apiCall storeID store db).1, r.Success = false)
      ∧ datastoreCalls (updateHandler env user apiCall storeID store db).1 = [])
    ∧ datastoreCalls (deleteHandler env user apiCall storeID db).1
        = [.deleteAllowedSubstore storeID user] := by
  constructor
  · intro hid
    simp [updateHandler, hauth, hid, responses, datastoreCalls, contentTypeHeader,
      Event.response?, Event.isDatastoreCall]
  · rcases hu : env.DeleteAllowedSubstore storeID user db with ⟨⟨sub, _ | e⟩, db'⟩ <;>
      simp [deleteHandler, hauth, hu, datastoreCalls, contentTypeHeader,
        Event.isDatastoreCall]

/-- The Admin of account 7: an update of sub-store 1 through the path of
sub-store 2 is rejected without a datastore call; a delete of sub-store 1
calls the datastore with ID 1. -/
theorem update_checks_id_delete_uses_path_id_witness :
    (specEnv "refused").CheckUserPermissions adminOf7 Role.Admin false = none
    ∧ datastoreCalls (updateHandler (specEnv "refused") adminOf7 false 2 brandX [brandX]).1 = []
    ∧ datastoreCalls (deleteHandler (specEnv "refused") adminOf7 false 2 [brandX]).1
        = [.deleteAllowedSubstore 2 adminOf7] :=
  have h := update_checks_id_delete_uses_path_id (specEnv "refused") adminOf7 false 2 brandX
    [brandX] (by decide)
  ⟨by decide, (h.1 (by decide)).2, h.2⟩

/-! ## The route table -/

/-- The leading run of non-slash characters of a list grows with the list. -/
theorem takeWhile_notSlash_mono {q cs : List Char} (h : q <+: cs) :
    q.takeWhile notSlash <+: cs.takeWhile notSlash := by
  induction q generalizing cs with
  | nil => simp
  | cons c q ih =>
    obtain ⟨t, rfl⟩ := h
    cases hc : notSlash c with
    | false => simp [List.takeWhile_cons, hc]
    | true =>
      simp only [List.cons_append, List.takeWhile_cons, hc, if_true]
      exact (List.cons_prefix_cons).2 ⟨rfl, ih (List.prefix_append q t)⟩

/-- Two segments that accept the same run of characters overlap. -/
theorem segOverlaps_of_accepts {s s' : Seg} {tok : List Char}
    (h : s.accepts tok = true) (h' : s'.accepts tok = true) : s.overlaps s' = true := by
  cases s with
  | lit a =>
    cases s' with
    | lit b =>
      simp only [Seg.accepts, decide_eq_true_eq] at h h'
      subst h
      simpa [Seg.overlaps] using h'
    | var n p =>
      simp only [Seg.accepts, decide_eq_true_eq] at h h'
      subst h
      simpa [Seg.overlaps] using h'
  | var n p =>
    cases s' with
    | lit b =>
      simp only [Seg.accepts, decide_eq_true_eq] at h h'
      subst h'
      simpa [Seg.overlaps] using h
    | var n' p' => rfl

/-- Two templates that match the same path overlap. -/
theorem templatesOverlap_of_match {t t' : List Seg} {cs : List Char}
    (h : matchTemplate t cs = true) (h' : matchTemplate t' cs = true) :
    templatesOverlap t t' = true := by
  induction t generalizing t' cs with
  | nil =>
    cases t' with
    | nil => rfl
    | cons s' r' =>
      cases cs with
      | nil => simp [matchTemplate] at h'
      | cons c cs => simp [matchTemplate] at h
  | cons s r ih =>
    cases t' with
    | nil =>
      cases cs with
      | nil => simp [matchTemplate] at h
      | cons c cs => simp [matchTemplate] at h'
    | cons s' r' =>
      cases cs with
      | nil => simp [matchTemplate] at h
      | cons c cs =>
        simp only [matchTemplate, Bool.and_eq_true] at h h'
        simp only [templatesOverlap, Bool.and_eq_true]
        exact ⟨segOverlaps_of_accepts h.1.2 h'.1.2, ih h.2 h'.2⟩

/-- A template and a path prefix that accept the same path overlap. -/
theorem templateOverlapsStart_of_match {t : List Seg} {p cs : List Char}
    (h : matchTemplate t cs = true) (hp : p <+: cs) : templateOverlapsStart t p = true := by
  cases t with
  | nil => cases p <;> rfl
  | cons s r =>
    cases s with
    | var n pat => cases p <;> rfl
    | lit a =>
      cases p with
      | nil => rfl
      | cons c q =>
        cases cs with
        | nil => simp [matchTemplate] at h
        | cons d cs =>
          simp only [matchTemplate, Bool.and_eq_true, Seg.accepts, decide_eq_true_eq,
            beq_iff_eq] at h
          obtain ⟨hcd, hq⟩ := (List.cons_prefix_cons).1 hp
          have hmono := takeWhile_notSlash_mono hq
          rw [h.1.2] at hmono
          simpa [templateOverlapsStart, hcd, h.1.1] using hmono

/-- Two path matchers that accept the same path overlap. -/
theorem pathOverlaps_of_accepts {a b : PathMatcher} {path : String}
    (h : a.accepts path = true) (h' : b.accepts path = true) : a.overlaps b = true := by
  cases a with
  | exact t =>
    cases b with
    | exact t' => exact templatesOverlap_of_match h h'
    | startsWith q =>
      exact templateOverlapsStart_of_match h (List.isPrefixOf_iff_prefix.1 h')
  | startsWith p =>
    cases b with
    | exact t' =>
      exact templateOverlapsStart_of_match h' (List.isPrefixOf_iff_prefix.1 h)
    | startsWith q =>
      have hp := List.isPrefixOf_iff_prefix.1 h
      have hq := List.isPrefixOf_iff_prefix.1 h'
      simp only [PathMatcher.overlaps, Bool.or_eq_true, List.isPrefixOf_iff_prefix]
      exact List.prefix_or_prefix_of_prefix hp hq

/-- Two routes that match the same request overlap. -/
theorem routeOverlaps_of_isMatch {r r' : Route} {method path : String}
    (h : r.isMatch method path = true) (h' : r'.isMatch method path = true) :
    r.overlaps r' = true := by
  simp only [Route.isMatch, Bool.and_eq_true] at h h'
  simp only [Route.overlaps, Bool.and_eq_true]
  refine ⟨pathOverlaps_of_accepts h.1 h'.1, ?_⟩
  cases hm : r.methods with
  | none => cases r'.methods <;> rfl
  | some ms =>
    cases hm' : r'.methods with
    | none => rfl
    | some ms' =>
      have h2 := h.2
      have h2' := h'.2
      simp only [hm, hm'] at h2 h2'
      simp only [methodsOverlap, List.any_eq_true]
      exact ⟨method, by simpa using h2, h2'⟩

/-- In an overlap-free table at most one route matches a request. -/
theorem overlapFree_filter_length {routes : List Route} (hfree : overlapFree routes = true)
    (method path : String) :
    (routes.filter fun r => r.isMatch method path).length ≤ 1 := by
  induction routes with
  | nil => simp
  | cons r rs ih =>
    simp only [overlapFree, Bool.and_eq_true, List.all_eq_true, Bool.not_eq_true'] at hfree
    cases hr : r.isMatch method path with
    | false => simpa [List.filter_cons, hr] using ih hfree.2
    | true =>
      have hnone : (rs.filter fun r' => r'.isMatch method path) = [] := by
        rw [List.filter_eq_nil_iff]
        intro r' hmem hr'
        have := routeOverlaps_of_isMatch hr hr'
        rw [hfree.1 r' hmem] at this
        exact Bool.false_ne_true this
      simp [List.filter_cons, hr, hnone]

/-- The first element that satisfies a test is the head of the filtered list. -/
theorem find?_eq_head?_filter {α : Type} (p : α → Bool) (l : List α) :
    l.find? p = (l.filter p).head? := by
  induction l with
  | nil => rfl
  | cons a l ih =>
    cases ha : p a with
    | false => simpa only [List.find?_cons, List.filter_cons, ha] using ih
    | true => simp only [List.find?_cons, List.filter_cons, ha, if_true, List.head?_cons]

/-- When at most one route of a table matches a request, every reordering of
the table dispatches the request to the same route. -/
theorem dispatch_perm {routes routes' : List Route} {method path : String}
    (hone : (routes.filter fun r => r.isMatch method path).length ≤ 1)
    (hperm : routes'.Perm routes) :
    dispatch routes' method path = dispatch routes method path := by
  have hfilter := hperm.filter fun r => r.isMatch method path
  unfold dispatch
  rw [find?_eq_head?_filter, find?_eq_head?_filter]
  generalize routes.filter (fun r => r.isMatch method path) = matching at hone hfilter
  generalize routes'.filter (fun r => r.isMatch method path) = matching' at hfilter
  match matching, hone, hfilter with
  | [], _, hf => rw [List.perm_nil.1 hf]
  | [a], _, hf => rw [List.perm_singleton.1 hf]
  | _ :: _ :: _, h, _ => exact absurd h (by simp)

set_option maxRecDepth 100000 in
/-- No two routes of `AdminRouter` can match a common request. -/
theorem adminRouter_overlapFree : overlapFree AdminRouter = true := by
  decide

/-- C10: for every HTTP method and every request path at most one route of
AdminRouter matches, so that every reordering of the table dispatches the
request to the same route; the literal segments upload, stores, assertion,
generate, status and register do not match the variable id with pattern
[0-9]+; and no path matches both /v1/accounts/(id)/stores and
/v1/accounts/stores/(id), nor both of their /api/ counterparts. -/
theorem adminRouter_unambiguous (method path : String) :
    (AdminRouter.filter fun r => r.isMatch method path).length ≤ 1
    ∧ (∀ routes : List Route, routes.Perm AdminRouter →
        dispatch routes method path = dispatch AdminRouter method path)
    ∧ (["upload", "stores", "assertion", "generate", "status", "register"].all
        fun word => !idVar.accepts word.toList) = true
    ∧ (matchTemplate [.lit "v1", .lit "accounts", idVar, .lit "stores"] path.toList
        && matchTemplate [.lit "v1", .lit "accounts", .lit "stores", idVar] path.toList) = false
    ∧ (matchTemplate [.lit "api", .lit "accounts", idVar, .lit "stores"] path.toList
        && matchTemplate [.lit "api", .lit "accounts", .lit "stores", idVar] path.toList)
        = false := by
  have hone := overlapFree_filter_length adminRouter_overlapFree method path
  refine ⟨hone, fun routes hperm => dispatch_perm hone hperm, by decide, ?_, ?_⟩
  · rw [Bool.and_eq_false_iff, ← Bool.not_eq_true, ← Bool.not_eq_true, ← not_and_or]
    intro h
    exact absurd (templatesOverlap_of_match h.1 h.2) (by decide)
  · rw [Bool.and_eq_false_iff, ← Bool.not_eq_true, ← Bool.not_eq_true, ← not_and_or]
    intro h
    exact absurd (templatesOverlap_of_match h.1 h.2) (by decide)

/-! ## Request-ID nonces -/

/-- A spent token cannot be redeemed, and the table stays as it is. -/
theorem redeem_of_spent {token : String} {store : List Nonce} (h : spent token store)
    (now : Nat) : redeem token now store = (.ErrorNonceInvalid, store) := by
  have hany : store.any (Nonce.redeemable token now) = false := by
    rw [List.any_eq_false]
    intro n hn hred
    simp only [Nonce.redeemable, Bool.and_eq_true, beq_iff_eq, Bool.not_eq_true'] at hred
    have := h.2 n hn hred.1.1
    rw [hred.1.2] at this
    exact Bool.false_ne_true this
  simp [redeem, hany]

/-- A successful redemption leaves the token spent. -/
theorem spent_of_redeem_success {token : String} {store : List Nonce} {now : Nat}
    (h : (redeem token now store).1 = .Success) : spent token (redeem token now store).2 := by
  unfold redeem at h ⊢
  split at h
  · rename_i hany
    rw [if_pos hany]
    obtain ⟨n, hn, hred⟩ := List.any_eq_true.1 hany
    simp only [Nonce.redeemable, Bool.and_eq_true, beq_iff_eq] at hred
    constructor
    · refine ⟨{ n with Consumed := true }, ?_, hred.1.1⟩
      exact List.mem_map.2 ⟨n, hn, by simp [hred.1.1]⟩
    · intro m hm hmt
      obtain ⟨k, _, rfl⟩ := List.mem_map.1 hm
      by_cases hk : k.Token = token
      · simp [hk]
      · simp [hk] at hmt
  · exact absurd h (by simp)

/-- Issuing a nonce leaves a spent token spent. -/
theorem spent_issue {token : String} {store : List Nonce} (h : spent token store)
    (t : String) (now window : Nat) : spent token (issue t now window store) := by
  unfold issue
  split
  · exact h
  · rename_i hany
    obtain ⟨⟨n, hn, hnt⟩, hall⟩ := h
    refine ⟨⟨n, List.mem_cons_of_mem _ hn, hnt⟩, ?_⟩
    intro m hm hmt
    rcases List.mem_cons.1 hm with rfl | hm
    · exfalso
      apply hany
      exact List.any_eq_true.2 ⟨n, hn, by simp [hnt, ← hmt]⟩
    · exact hall m hm hmt

/-- Redeeming any token leaves a spent token spent. -/
theorem spent_redeem {token : String} {store : List Nonce} (h : spent token store)
    (t : String) (now : Nat) : spent token (redeem t now store).2 := by
  unfold redeem
  split
  · obtain ⟨⟨n, hn, hnt⟩, hall⟩ := h
    constructor
    · by_cases hnt' : n.Token = t
      · exact ⟨{ n with Consumed := true }, List.mem_map.2 ⟨n, hn, by simp [hnt']⟩, hnt⟩
      · exact ⟨n, List.mem_map.2 ⟨n, hn, by simp [hnt']⟩, hnt⟩
    · intro m hm hmt
      obtain ⟨k, hk, rfl⟩ := List.mem_map.1 hm
      by_cases hkt : k.Token = t
      · simp [hkt]
      · simp only [beq_iff_eq, hkt, if_false] at hmt ⊢
        exact hall k hk hmt
  · exact h

/-- A schedule leaves a spent token spent. -/
theorem spent_applyOps {token : String} (ops : List NonceOp) {store : List Nonce}
    (h : spent token store) : spent token (applyOps ops store) := by
  induction ops generalizing store with
  | nil => exact h
  | cons op ops ih =>
    cases op with
    | issue t now window => exact ih (spent_issue h t now window)
    | redeem t now => exact ih (spent_redeem h t now)

/-- Once a token is spent, no call of a schedule redeems it. -/
theorem count_success_of_spent {token : String} (ops : List NonceOp) {store : List Nonce}
    (h : spent token store) : (runOps ops store).count (token, .Success) = 0 := by
  induction ops generalizing store with
  | nil => rfl
  | cons op ops ih =>
    cases op with
    | issue t now window => exact ih (spent_issue h t now window)
    | redeem t now =>
      simp only [runOps]
      rw [List.count_cons, ih (spent_redeem h t now)]
      by_cases ht : t = token
      · subst ht
        simp [redeem_of_spent h now]
      · simp [ht]

/-- A schedule redeems a token at most once, whatever the table it starts from. -/
theorem count_success_le_one (token : String) (ops : List NonceOp) (store : List Nonce) :
    (runOps ops store).count (token, .Success) ≤ 1 := by
  induction ops generalizing store with
  | nil => simp [runOps]
  | cons op ops ih =>
    cases op with
    | issue t now window => exact ih _
    | redeem t now =>
      simp only [runOps]
      rw [List.count_cons]
      by_cases hwin : (t, (redeem t now store).1) = (token, RedeemResult.Success)
      · obtain ⟨rfl, hs⟩ := Prod.mk.inj hwin
        rw [count_success_of_spent ops (spent_of_redeem_success hs)]
        simp [hs]
      · have := ih (redeem t now store).2
        simp only [beq_iff_eq, hwin, if_false]
        omega

/-- C9, on the nonce table of the spec: the request-id endpoint and the serial
signing endpoint are the routes of RequestIDHandler and SignHandler; once
redeem(T) has succeeded, a second redeem(T) fails with ErrorNonceInvalid after
any schedule of further calls; two racing redemptions of T, taken in the order
in which their atomic calls reach the table, have exactly one winner; and no
schedule of calls, from any table, redeems T more than once. -/
theorem redeem_at_most_once (token : String) (now now' : Nat) (store store' : List Nonce)
    (between ops : List NonceOp) (hfirst : (redeem token now store).1 = .Success) :
    (redeem token now' (applyOps between (redeem token now store).2)).1 = .ErrorNonceInvalid
    ∧ runOps [.redeem token now, .redeem token now'] store
        = [(token, .Success), (token, .ErrorNonceInvalid)]
    ∧ (runOps ops store').count (token, .Success) ≤ 1
    ∧ (dispatch SigningRouter "POST" "/v1/request-id").map Route.handler
        = some "RequestIDHandler"
    ∧ (dispatch SigningRouter "POST" "/v1/serial").map Route.handler = some "SignHandler" := by
  have hspent := spent_of_redeem_success hfirst
  refine ⟨?_, ?_, count_success_le_one token ops store', by decide, by decide⟩
  · rw [redeem_of_spent (spent_applyOps between hspent)]
  · simp [runOps, hfirst, redeem_of_spent hspent]

/-- A nonce issued at time 0 with a window of 600 is redeemed at time 10; the
redemption that races with it, and one after a further issue, both fail. -/
theorem redeem_at_most_once_witness :
    (redeem "n-1" 10 (issue "n-1" 0 600 [])).1 = .Success
    ∧ (redeem "n-1" 11
        (applyOps [.issue "n-1" 12 600] (redeem "n-1" 10 (issue "n-1" 0 600 [])).2)).1
        = .ErrorNonceInvalid
    ∧ runOps [.redeem "n-1" 10, .redeem "n-1" 11] (issue "n-1" 0 600 [])
        = [("n-1", .Success), ("n-1", .ErrorNonceInvalid)] :=
  have h := redeem_at_most_once "n-1" 10 11 (issue "n-1" 0 600 []) []
    [.issue "n-1" 12 600] [] (by decide)
  ⟨by decide, h.1, h.2.1⟩

end SerialVault
